import Mathlib

/-!
Verification of the Pain Radar frontend (web/src) and its evidence-gated
engine contract, as a shallow embedding in Lean 4.

TypeScript sources embedded here:
  * web/src/lib/types.ts            (data model)
  * web/src/hooks/use-research.ts   (status poller)
  * web/src/components/ui/verdict-badge.tsx
  * web/src/components/ui/stage-timeline.tsx
  * web/src/components/report-view.tsx (ReportView, ValidationPlanView,
    EvidenceList, conflicts rendering)
  * web/src/components/ui/cluster-card.tsx

The Python engine (evidence_gate.py and the pydantic schemas) is not part
of the embedded sources; where a property depends on it, the component is
modelled from the specification text and marked as such in its doc comment.
-/

namespace PainRadar

/-! ## String helpers (JavaScript semantics) -/

/-- Bool test that `needle` occurs at the head of `hay` (char lists). -/
def leadsChars : List Char → List Char → Bool
  | [], _ => true
  | _ :: _, [] => false
  | c :: cs, d :: ds => c == d && leadsChars cs ds

/-- Bool test that `needle` occurs contiguously inside `hay` (char lists). -/
def hasSub : List Char → List Char → Bool
  | [], needle => needle.isEmpty
  | c :: t, needle => leadsChars needle (c :: t) || hasSub t needle

/-- JavaScript `hay.includes(needle)`: substring containment on strings. -/
def jsIncludes (hay needle : String) : Bool :=
  hasSub hay.data needle.data

/-! ## Data model (web/src/lib/types.ts) -/

/-- `Citation` from types.ts. `source_type` is one of the `SourceType`
union strings; `recency_months` mirrors `number | null`. -/
structure Citation where
  url : String
  excerpt : String
  source_type : String
  date_published : Option String
  date_retrieved : String
  recency_months : Option Int
  snapshot_hash : String
deriving DecidableEq

/-- `EvidencedClaim` from types.ts. Indices are JS numbers used as array
indices; modelled as `Int` so that negative indices are representable. -/
structure EvidencedClaim where
  text : String
  citation_indices : List Int
  evidence_excerpts : Option (List String)
deriving DecidableEq

/-- `ScoredDimension` from types.ts. -/
structure ScoredDimension where
  score : Int
  justification : EvidencedClaim
deriving DecidableEq

/-- `ClusterScores` from types.ts: exactly seven named dimensions. -/
structure ClusterScores where
  frequency : ScoredDimension
  severity : ScoredDimension
  urgency : ScoredDimension
  payability : ScoredDimension
  workaround_cost : ScoredDimension
  saturation : ScoredDimension
  accessibility : ScoredDimension
deriving DecidableEq

/-- `ClusterCategory` union from types.ts. -/
inductive ClusterCategory
  | core
  | context
deriving DecidableEq

/-- `PainCluster` from types.ts. -/
structure PainCluster where
  id : String
  statement : EvidencedClaim
  who : String
  trigger : String
  workarounds : List String
  citation_indices : List Int
  scores : ClusterScores
  confidence : Rat
  recency_weight : Rat
  category : Option ClusterCategory
deriving DecidableEq

/-- `OnboardingModel` union from types.ts. -/
inductive OnboardingModel
  | self_serve
  | sales_led
  | unknown
deriving DecidableEq

/-- `CompetitorRelationship` union from types.ts. -/
inductive CompetitorRelationship
  | direct
  | substitute
  | adjacent
deriving DecidableEq

/-- `Competitor` from types.ts. -/
structure Competitor where
  name : String
  url : String
  pricing_page_exists : Bool
  min_price_observed : Option String
  target_icp : Option EvidencedClaim
  onboarding_model : OnboardingModel
  positioning : String
  relationship : Option CompetitorRelationship
  strengths : List EvidencedClaim
  weaknesses : List EvidencedClaim
  citation_indices : List Int
deriving DecidableEq

/-- The `"strong" | "weak"` relevance union on `ConflictReport`. -/
inductive Relevance
  | strong
  | weak
deriving DecidableEq

/-- `ConflictReport` from types.ts. -/
structure ConflictReport where
  description : String
  side_a : EvidencedClaim
  side_b : EvidencedClaim
  relevance : Relevance
deriving DecidableEq

/-- `VerdictDecision` union from types.ts: exactly four values. -/
inductive VerdictDecision
  | KILL
  | NARROW
  | ADVANCE
  | INSUFFICIENT_EVIDENCE
deriving DecidableEq, Fintype

/-- The string carried by each `VerdictDecision` union member. -/
def VerdictDecision.toStr : VerdictDecision → String
  | .KILL => "KILL"
  | .NARROW => "NARROW"
  | .ADVANCE => "ADVANCE"
  | .INSUFFICIENT_EVIDENCE => "INSUFFICIENT_EVIDENCE"

/-- `Verdict` from types.ts. -/
structure Verdict where
  decision : VerdictDecision
  reasons : List EvidencedClaim
  risks : List EvidencedClaim
  narrowest_wedge : String
  what_would_change : String
  conflicts : List ConflictReport
  evidence_quality_notes : List String
deriving DecidableEq

/-- `ValidationPlan` from types.ts. -/
structure ValidationPlan where
  verdict_context : VerdictDecision
  objective : String
  channels : List String
  outreach_targets : List String
  interview_script : String
  landing_page_hypotheses : List String
  concierge_procedure : String
  success_threshold : String
  reversal_criteria : Option String
deriving DecidableEq

/-- The `"strong" | "moderate" | "weak" | "none"` union on
`PayabilityAssessment.overall_strength`. -/
inductive PayabilityStrength
  | strong
  | moderate
  | weak
  | none
deriving DecidableEq

/-- `PayabilityAssessment` from types.ts. -/
structure PayabilityAssessment where
  hiring_signals : List EvidencedClaim
  outsourcing_signals : List EvidencedClaim
  template_sop_signals : List EvidencedClaim
  overall_strength : PayabilityStrength
  summary : String
deriving DecidableEq

/-- `IdeaBrief` from types.ts. -/
structure IdeaBrief where
  raw_idea : String
  one_liner : String
  buyer_persona : String
  workflow_replaced : String
  moment_of_pain : String
  keywords : List String
deriving DecidableEq

/-- `EvidenceQualityMetrics` from types.ts. -/
structure EvidenceQualityMetrics where
  cluster_confidences : List Rat
  median_confidence : Rat
  high_confidence_count : Nat
  total_clusters : Nat
  total_citations : Nat
  unique_domains : Nat
  unique_source_types : Nat
  topic_relevance_ratio : Option Rat
  gate_triggered : Option String
deriving DecidableEq

/-- `ResearchReport` from types.ts. -/
structure ResearchReport where
  id : String
  idea_brief : IdeaBrief
  pain_map : List PainCluster
  payability : PayabilityAssessment
  competitors : List Competitor
  verdict : Verdict
  validation_plan : ValidationPlan
  evidence_pack : List Citation
  skeptic_flags : List String
  conflicts : List ConflictReport
  evidence_quality : EvidenceQualityMetrics
deriving DecidableEq

/-! ## Job status and the client poller (types.ts, use-research.ts) -/

/-- `JobStatus` union from types.ts: exactly seven values. -/
inductive JobStatus
  | created
  | clarifying
  | researching
  | analyzing
  | reviewing
  | complete
  | failed
deriving DecidableEq, Fintype

/-- What the poller in use-research.ts does after observing a status:
`fetchReportAndStop` models `stopPolling(); getReport(...)`,
`setErrorAndStop` models `stopPolling(); setError(...)`,
`keepPolling` models falling through to the next interval tick. -/
inductive PollAction
  | fetchReportAndStop
  | setErrorAndStop
  | keepPolling
deriving DecidableEq

/-- The status branch of `poll` in use-research.ts:
`if (s.status === "complete") { stopPolling(); ... getReport ... }
 else if (s.status === "failed") { stopPolling(); setError(...) }`. -/
def pollTransition (s : JobStatus) : PollAction :=
  if s = JobStatus.complete then PollAction.fetchReportAndStop
  else if s = JobStatus.failed then PollAction.setErrorAndStop
  else PollAction.keepPolling

/-! ## Verdict badge (web/src/components/ui/verdict-badge.tsx) -/

/-- One entry of `VERDICT_CONFIG` in verdict-badge.tsx. The lucide icon
component is represented by its name. -/
structure VerdictBadgeStyle where
  icon : String
  label : String
  textColor : String
  glowColor : String
  borderColor : String
  bgColor : String
deriving DecidableEq

/-- The `ADVANCE` entry of `VERDICT_CONFIG`. -/
def advanceStyle : VerdictBadgeStyle :=
  ⟨"TrendingUp", "ADVANCE", "text-green-400", "rgba(34, 197, 94, 0.2)",
    "border-green-500/30", "bg-green-500/5"⟩

/-- The `KILL` entry of `VERDICT_CONFIG`. -/
def killStyle : VerdictBadgeStyle :=
  ⟨"X", "KILL", "text-red-400", "rgba(239, 68, 68, 0.2)",
    "border-red-500/30", "bg-red-500/5"⟩

/-- The `NARROW` entry of `VERDICT_CONFIG`. -/
def narrowStyle : VerdictBadgeStyle :=
  ⟨"Focus", "NARROW", "text-yellow-400", "rgba(234, 179, 8, 0.2)",
    "border-yellow-500/30", "bg-yellow-500/5"⟩

/-- The `INSUFFICIENT_EVIDENCE` entry of `VERDICT_CONFIG`. -/
def insufficientEvidenceStyle : VerdictBadgeStyle :=
  ⟨"AlertCircle", "INSUFFICIENT EVIDENCE", "text-zinc-400",
    "rgba(161, 161, 170, 0.1)", "border-zinc-600/30", "bg-zinc-500/5"⟩

/-- Result of a JavaScript property read on the `VERDICT_CONFIG` object
literal: an own property (one of the four style entries), a truthy value
inherited from `Object.prototype` (a method such as `toString`, or the
prototype object via `__proto__` — not a style), or `undefined`. -/
inductive JsLookup
  | own (style : VerdictBadgeStyle)
  | inherited (propName : String)
  | undef
deriving DecidableEq

/-- The property names every plain object literal inherits from
`Object.prototype`, all of which read back as truthy values. -/
def protoProps : List String :=
  [ "constructor", "hasOwnProperty", "isPrototypeOf", "propertyIsEnumerable",
    "toLocaleString", "toString", "valueOf", "__proto__",
    "__defineGetter__", "__defineSetter__", "__lookupGetter__",
    "__lookupSetter__" ]

/-- `VERDICT_CONFIG[decision]`: JavaScript bracket lookup on the object
literal. Own keys win; keys naming `Object.prototype` members yield the
truthy inherited value; every other key yields `undefined`. -/
def VERDICT_CONFIG (decision : String) : JsLookup :=
  if decision = "ADVANCE" then JsLookup.own advanceStyle
  else if decision = "KILL" then JsLookup.own killStyle
  else if decision = "NARROW" then JsLookup.own narrowStyle
  else if decision = "INSUFFICIENT_EVIDENCE" then
    JsLookup.own insufficientEvidenceStyle
  else if decision ∈ protoProps then JsLookup.inherited decision
  else JsLookup.undef

/-- `const config = VERDICT_CONFIG[decision] || VERDICT_CONFIG.INSUFFICIENT_EVIDENCE`:
the `||` falls back only when the lookup is falsy (`undefined`); a truthy
inherited value is kept as-is. -/
def verdictBadgeChosen (decision : String) : JsLookup :=
  match VERDICT_CONFIG decision with
  | JsLookup.undef => JsLookup.own insufficientEvidenceStyle
  | other => other

/-- What rendering `VerdictBadge` does with the chosen `config`: with a
style it renders the badge; with an inherited non-style value,
`config.icon` and `config.label` are `undefined` and the `<Icon/>`
element makes React throw. -/
inductive BadgeRender
  | renders (style : VerdictBadgeStyle)
  | throwsTypeError
deriving DecidableEq

/-- The rendered outcome of `VerdictBadge` for a decision string. -/
def verdictBadgeRender (decision : String) : BadgeRender :=
  match verdictBadgeChosen decision with
  | JsLookup.own style => BadgeRender.renders style
  | _ => BadgeRender.throwsTypeError

/-! ## Stage timeline (web/src/components/ui/stage-timeline.tsx) -/

/-- The `STAGES` constant: `(key, label)` pairs, icons omitted. -/
def STAGES : List (String × String) :=
  [ ("intake", "Parsing idea")
  , ("query_generation", "Generating search queries")
  , ("evidence_collection", "Collecting evidence")
  , ("topic_relevance_check", "Checking relevance")
  , ("analysis", "Analyzing pain points")
  , ("conflict_detection", "Detecting conflicts")
  , ("verdict", "Generating verdict")
  , ("validation_plan", "Building validation plan")
  , ("skeptic_pass", "Running skeptic review")
  , ("assembly", "Assembling report")
  ]

/-- The keys of `STAGES`, in order. -/
def stageKeys : List String := STAGES.map Prod.fst

/-- `STAGES.findIndex((s) => s.key === currentStage)`: JS `findIndex`
returns `-1` when no entry matches. -/
def currentStageIndex (currentStage : String) : Int :=
  match stageKeys.findIdx? (fun k => k == currentStage) with
  | some n => (n : Int)
  | none => -1

/-- Visual state of one timeline row in `StageTimeline`. -/
inductive StageVisualState
  | done
  | current
  | pending
deriving DecidableEq

/-- `const isDone = i < currentIndex; const isCurrent = i === currentIndex`
for the row at position `i`. -/
def stageRenderState (currentStage : String) (i : Nat) : StageVisualState :=
  if (i : Int) < currentStageIndex currentStage then StageVisualState.done
  else if (i : Int) = currentStageIndex currentStage then StageVisualState.current
  else StageVisualState.pending

/-! ## Evidence appendix list (EvidenceList in report-view.tsx) -/

/-- JavaScript `s.toLowerCase()` on the character sequence. -/
def jsToLower (s : String) : String :=
  String.mk (s.data.map Char.toLower)

/-- `matchesSearch` from the `EvidenceList` filter:
`!search || c.excerpt.toLowerCase().includes(search.toLowerCase())
         || c.url.toLowerCase().includes(search.toLowerCase())`. -/
def matchesSearch (search : String) (c : Citation) : Bool :=
  (search == "")
    || jsIncludes (jsToLower c.excerpt) (jsToLower search)
    || jsIncludes (jsToLower c.url) (jsToLower search)

/-- `matchesType` from the `EvidenceList` filter:
`filterType === "all" || c.source_type === filterType`. -/
def matchesType (filterType : String) (c : Citation) : Bool :=
  (filterType == "all") || (c.source_type == filterType)

/-- `const filtered = citations.filter((c) => matchesSearch && matchesType)`. -/
def filteredCitations (citations : List Citation) (search filterType : String) :
    List Citation :=
  citations.filter (fun c => matchesSearch search c && matchesType filterType c)

/-- `const globalIdx = citations.indexOf(c)`: the reference number shown in
the appendix row `[{globalIdx}]`. In JavaScript every array element is a
distinct object reference, so `indexOf` on a filtered element recovers its
position in the full array. -/
def displayedRefNumber (citations : List Citation) (c : Citation) : Nat :=
  citations.indexOf c

/-! ## Conflicts rendering inside the verdict section (report-view.tsx) -/

/-- What one conflict card shows: the description plus both side texts
(`{c.description}`, `Side A: {c.side_a.text}`, `Side B: {c.side_b.text}`). -/
structure RenderedConflict where
  description : String
  sideAText : String
  sideBText : String
deriving DecidableEq

/-- Rendering of a single `ConflictReport` card. -/
def renderConflict (c : ConflictReport) : RenderedConflict :=
  ⟨c.description, c.side_a.text, c.side_b.text⟩

/-- The rendered conflicts block: the heading count, the prominent strong
cards and the collapsible weak cards. -/
structure ConflictsSection where
  count : Nat
  strongShown : List RenderedConflict
  weakShown : List RenderedConflict
deriving DecidableEq

/-- The conflicts block of the verdict section: rendered only when
`report.conflicts.length > 0`; heading `Conflicts ({report.conflicts.length})`;
strong cards from `conflicts.filter((c) => c.relevance === "strong")`,
weak cards from `conflicts.filter((c) => c.relevance !== "strong")`. -/
def renderConflictsSection (conflicts : List ConflictReport) :
    Option ConflictsSection :=
  if conflicts.length > 0 then
    some ⟨conflicts.length,
      (conflicts.filter (fun c => c.relevance == Relevance.strong)).map renderConflict,
      (conflicts.filter (fun c => !(c.relevance == Relevance.strong))).map renderConflict⟩
  else none

/-! ## Validation plan rendering (ValidationPlanView in report-view.tsx) -/

/-- One numbered entry of the validation-plan timeline. -/
structure PlanSection where
  label : String
  content : Option String
  list : Option (List String)
  script : Option String
deriving DecidableEq

/-- The `sections` array of `ValidationPlanView`: the Objective entry is
unconditional, the rest are conditioned exactly as in the source
(`plan.channels.length > 0 ? {...} : null`, truthiness of the script and
concierge strings), then nulls are dropped (`.filter(Boolean)`). -/
def validationPlanSections (plan : ValidationPlan) : List PlanSection :=
  ([ some ⟨"Objective", some plan.objective, none, none⟩
   , if plan.channels.length > 0
       then some ⟨"Channels", none, some plan.channels, none⟩ else none
   , if plan.outreach_targets.length > 0
       then some ⟨"Outreach Targets", none, some plan.outreach_targets, none⟩ else none
   , if plan.interview_script ≠ ""
       then some ⟨"Interview Script", none, none, some plan.interview_script⟩ else none
   , if plan.landing_page_hypotheses.length > 0
       then some ⟨"Landing Page Hypotheses", none, some plan.landing_page_hypotheses, none⟩ else none
   , if plan.concierge_procedure ≠ ""
       then some ⟨"Concierge MVP", some plan.concierge_procedure, none, none⟩ else none
   ] : List (Option PlanSection)).filterMap id

/-- The full rendered validation plan: the numbered sections, the
unconditional Success Threshold block, and the conditional Reversal
Criteria block. -/
structure RenderedValidationPlan where
  sections : List PlanSection
  successThreshold : String
  reversalCriteria : Option String
deriving DecidableEq

/-- `ValidationPlanView`: sections timeline, then the Success Threshold
block (always), then Reversal Criteria when present. -/
def renderValidationPlan (plan : ValidationPlan) : RenderedValidationPlan :=
  ⟨validationPlanSections plan, plan.success_threshold, plan.reversal_criteria⟩

/-! ## Top-level report sections (ReportView in report-view.tsx) -/

/-- One top-level section of the rendered report, in document order. The
payload of each section records what the claims under check need. -/
inductive ReportSection
  | verdictSummary (decision : String) (conflicts : Option ConflictsSection)
  | painMap (coreCount : Nat)
  | competitors (count : Nat)
  | skepticFlags (count : Nat)
  | payability (strength : PayabilityStrength)
  | validationPlan (plan : RenderedValidationPlan)
  | evidenceAppendix (citationCount : Nat)
deriving DecidableEq

/-- Core clusters: `report.pain_map.filter((c) => c.category !== "context")`. -/
def coreClusters (r : ResearchReport) : List PainCluster :=
  r.pain_map.filter (fun c => !(c.category == some ClusterCategory.context))

/-- The top-level JSX of `ReportView`, section by section: verdict summary
(with the conflicts block), pain map, competitors, skeptic flags only when
`report.skeptic_flags.length > 0`, payability, the validation plan section
(unconditional), and the evidence appendix. -/
def renderReport (r : ResearchReport) : List ReportSection :=
  [ ReportSection.verdictSummary r.verdict.decision.toStr
      (renderConflictsSection r.conflicts)
  , ReportSection.painMap (coreClusters r).length
  , ReportSection.competitors r.competitors.length
  ]
  ++ (if r.skeptic_flags.length > 0
        then [ReportSection.skepticFlags r.skeptic_flags.length] else [])
  ++ [ ReportSection.payability r.payability.overall_strength
     , ReportSection.validationPlan (renderValidationPlan r.validation_plan)
     , ReportSection.evidenceAppendix r.evidence_pack.length
     ]

/-! ## Cluster card dimensions (web/src/components/ui/cluster-card.tsx) -/

/-- The `dims` array of `ClusterCard`: `(key, label, dim)` triples, one per
scored dimension, in source order. -/
def clusterDims (c : PainCluster) : List (String × String × ScoredDimension) :=
  [ ("freq", "Frequency", c.scores.frequency)
  , ("sev", "Severity", c.scores.severity)
  , ("urg", "Urgency", c.scores.urgency)
  , ("pay", "Payability", c.scores.payability)
  , ("wac", "Workaround", c.scores.workaround_cost)
  , ("sat", "Saturation", c.scores.saturation)
  , ("acc", "Access", c.scores.accessibility)
  ]

/-- Modelled from the spec: the engine's pydantic schema (not under src/)
constrains each `ScoredDimension.score` to an integer in 0..5
("seven 0-5 integer dimension scores"). -/
def validScoredDimension (d : ScoredDimension) : Prop :=
  0 ≤ d.score ∧ d.score ≤ 5

/-- Modelled from the spec: all seven dimensions of a cluster satisfy the
0..5 score constraint. -/
def validClusterScores (s : ClusterScores) : Prop :=
  validScoredDimension s.frequency ∧ validScoredDimension s.severity ∧
  validScoredDimension s.urgency ∧ validScoredDimension s.payability ∧
  validScoredDimension s.workaround_cost ∧ validScoredDimension s.saturation ∧
  validScoredDimension s.accessibility

instance (d : ScoredDimension) : Decidable (validScoredDimension d) := by
  unfold validScoredDimension; infer_instance

instance (s : ClusterScores) : Decidable (validClusterScores s) := by
  unfold validClusterScores; infer_instance

/-! ## Evidence Gate (modelled from the spec) -/

/-- Modelled from the spec: raw generative output as a tagged variant
`Parsed(T) | Malformed(raw)` — the engine parser (evidence_gate.py, not
under src/) either parses the output into the expected schema or not. -/
inductive GenOutput (α : Type)
  | parsed (value : α)
  | malformed (raw : String)
deriving DecidableEq

/-- Modelled from the spec: the five Evidence Gate rejection reason codes,
in the order they are checked. -/
inductive GateReason
  | MALFORMED
  | UNCITED
  | INVALID_INDEX
  | UNSUPPORTED_NUMERIC
  | EXCERPT_NOT_FOUND
deriving DecidableEq, Fintype

/-- Modelled from the spec: a gate decision is either an accepted
structured result or a rejected verdict with a specific reason code. -/
inductive GateResult (α : Type)
  | accepted (value : α)
  | rejected (reason : GateReason)
deriving DecidableEq

/-- Maximal runs of digit characters, accumulator-style. -/
def digitRunsAux : List Char → List Char → List String
  | [], acc => if acc.isEmpty then [] else [String.mk acc.reverse]
  | c :: cs, acc =>
    if c.isDigit then digitRunsAux cs (c :: acc)
    else if acc.isEmpty then digitRunsAux cs []
    else String.mk acc.reverse :: digitRunsAux cs []

/-- Modelled from the spec: the numeric values appearing in a claim text,
taken as the maximal digit runs of the text ("found verbatim (or as an
equivalent numeral)" is modelled as verbatim containment of the run). -/
def numericTokens (s : String) : List String :=
  digitRunsAux s.data []

/-- The citations a claim actually cites: indices resolved against the
Evidence Pack, negative or out-of-range indices resolving to nothing. -/
def citedCitations (pack : List Citation) (c : EvidencedClaim) : List Citation :=
  c.citation_indices.filterMap
    (fun i => if i < 0 then none else pack.get? i.toNat)

/-- Modelled from the spec, rejection condition 2: a claim lacks
`citation_indices`. -/
def claimUncited (c : EvidencedClaim) : Bool :=
  c.citation_indices.isEmpty

/-- Modelled from the spec, rejection condition 3: some citation index is
out of range or negative. -/
def claimInvalidIndex (pack : List Citation) (c : EvidencedClaim) : Bool :=
  c.citation_indices.any
    (fun i => decide (i < 0) || decide ((pack.length : Int) ≤ i))

/-- Modelled from the spec, rejection condition 4: some numeric value in
the claim text is not found in the text of at least one cited citation's
excerpt. -/
def claimNumericUnsupported (pack : List Citation) (c : EvidencedClaim) : Bool :=
  (numericTokens c.text).any
    (fun t => !((citedCitations pack c).any (fun cit => jsIncludes cit.excerpt t)))

/-- Modelled from the spec, rejection condition 5: some `evidence_excerpts`
entry is not a substring of the corresponding snapshot text. The Snapshot
Store is the external collaborator `url → Option raw_text`. -/
def claimExcerptNotFound (pack : List Citation) (snap : String → Option String)
    (c : EvidencedClaim) : Bool :=
  match c.evidence_excerpts with
  | none => false
  | some exs =>
    exs.any (fun e =>
      !((citedCitations pack c).any (fun cit =>
        match snap cit.url with
        | some text => jsIncludes text e
        | none => false)))

/-- Modelled from the spec: the Evidence Gate. Given the claims carried by
a parsed output, the Evidence Pack and the Snapshot Store, produce either
an accepted structured result or a rejection with a specific reason code;
rejection conditions are checked in the fixed order MALFORMED, UNCITED,
INVALID_INDEX, UNSUPPORTED_NUMERIC, EXCERPT_NOT_FOUND, first failure wins.
(evidence_gate.py is not under src/.) -/
def evidenceGate {α : Type} (claimsOf : α → List EvidencedClaim)
    (pack : List Citation) (snap : String → Option String)
    (out : GenOutput α) : GateResult α :=
  match out with
  | GenOutput.malformed _ => GateResult.rejected GateReason.MALFORMED
  | GenOutput.parsed v =>
    let cs := claimsOf v
    if cs.any claimUncited then GateResult.rejected GateReason.UNCITED
    else if cs.any (claimInvalidIndex pack) then
      GateResult.rejected GateReason.INVALID_INDEX
    else if cs.any (claimNumericUnsupported pack) then
      GateResult.rejected GateReason.UNSUPPORTED_NUMERIC
    else if cs.any (claimExcerptNotFound pack snap) then
      GateResult.rejected GateReason.EXCERPT_NOT_FOUND
    else GateResult.accepted v

/-- Modelled from the spec: the outcome of one gated unit of work — an
accepted value, or the explicit `INSUFFICIENT_EVIDENCE` placeholder the
unit degrades to after all attempts are rejected. -/
inductive UnitOutcome (α : Type)
  | accepted (value : α)
  | insufficientEvidence
deriving DecidableEq

/-- Modelled from the spec: the bounded retry loop. `gen i` is the i-th
generative attempt; `remaining` attempts are tried in order, stopping at
the first accepted one; when none remains the unit degrades. -/
def runAttempts {α : Type} (gate : GenOutput α → GateResult α)
    (gen : Nat → GenOutput α) : Nat → Nat → UnitOutcome α
  | _, 0 => UnitOutcome.insufficientEvidence
  | i, Nat.succ k =>
    match gate (gen i) with
    | GateResult.accepted v => UnitOutcome.accepted v
    | GateResult.rejected _ => runAttempts gate gen (i + 1) k

/-- Modelled from the spec: a rejected unit is retried at most 2 times,
3 attempts total; after 3 rejected attempts the unit's output becomes the
explicit `INSUFFICIENT_EVIDENCE` placeholder. -/
def runGatedUnit {α : Type} (gate : GenOutput α → GateResult α)
    (gen : Nat → GenOutput α) : UnitOutcome α :=
  runAttempts gate gen 0 3

/-! ## The claims carried by a report (spec data model §3) -/

/-- The seven dimension justifications of a cluster's scores. -/
def claimsOfScores (s : ClusterScores) : List EvidencedClaim :=
  [ s.frequency.justification, s.severity.justification,
    s.urgency.justification, s.payability.justification,
    s.workaround_cost.justification, s.saturation.justification,
    s.accessibility.justification ]

/-- All evidenced claims carried by a pain cluster. -/
def claimsOfCluster (c : PainCluster) : List EvidencedClaim :=
  c.statement :: claimsOfScores c.scores

/-- All evidenced claims carried by a competitor entry. -/
def claimsOfCompetitor (c : Competitor) : List EvidencedClaim :=
  (match c.target_icp with
   | some t => [t]
   | none => []) ++ c.strengths ++ c.weaknesses

/-- The two sides of a conflict report. -/
def claimsOfConflict (c : ConflictReport) : List EvidencedClaim :=
  [c.side_a, c.side_b]

/-- All evidenced claims carried by the payability assessment. -/
def claimsOfPayability (p : PayabilityAssessment) : List EvidencedClaim :=
  p.hiring_signals ++ p.outsourcing_signals ++ p.template_sop_signals

/-- Every evidenced claim in a report: cluster statements and score
justifications, competitor claims, verdict reasons and risks, conflict
sides, and payability signals. -/
def reportClaims (r : ResearchReport) : List EvidencedClaim :=
  (r.pain_map.flatMap claimsOfCluster)
    ++ (r.competitors.flatMap claimsOfCompetitor)
    ++ r.verdict.reasons ++ r.verdict.risks
    ++ (r.verdict.conflicts.flatMap claimsOfConflict)
    ++ (r.conflicts.flatMap claimsOfConflict)
    ++ claimsOfPayability r.payability

/-! ## Concrete sample data for witness evaluations -/

/-- A concrete citation. -/
def sampleCitation0 : Citation :=
  ⟨"https://a.example", "alpha pain", "reddit", none, "2025-01-01", some 3, "h0"⟩

/-- A second concrete citation. -/
def sampleCitation1 : Citation :=
  ⟨"https://b.example", "beta pain", "web", none, "2025-01-02", some 4, "h1"⟩

/-- A concrete strong conflict. -/
def sampleStrongConflict : ConflictReport :=
  ⟨"desc one", ⟨"side a text", [0], none⟩, ⟨"side b text", [0], none⟩, Relevance.strong⟩

/-- A concrete weak conflict. -/
def sampleWeakConflict : ConflictReport :=
  ⟨"desc two", ⟨"side c text", [0], none⟩, ⟨"side d text", [0], none⟩, Relevance.weak⟩

/-- A concrete conflicts list with one strong and one weak entry. -/
def sampleConflicts : List ConflictReport :=
  [sampleStrongConflict, sampleWeakConflict]

/-- The rendered conflicts block of `sampleConflicts`. -/
def sampleConflictsSection : ConflictsSection :=
  ⟨2, [renderConflict sampleStrongConflict], [renderConflict sampleWeakConflict]⟩

/-- A concrete scored dimension. -/
def sampleDim : ScoredDimension :=
  ⟨3, ⟨"justified claim", [0], none⟩⟩

/-- A concrete pain cluster with all seven dimensions at `sampleDim`. -/
def sampleCluster : PainCluster :=
  ⟨"c1", ⟨"statement", [0], none⟩, "who", "trigger", [], [0],
    ⟨sampleDim, sampleDim, sampleDim, sampleDim, sampleDim, sampleDim, sampleDim⟩,
    1, 1, none⟩

/-- A concrete minimal report: one verdict reason citing index 0 of a
one-citation evidence pack. -/
def sampleReport : ResearchReport :=
  ⟨"job1", ⟨"idea", "one liner", "buyer", "workflow", "moment", []⟩,
    [], ⟨[], [], [], PayabilityStrength.none, "summary"⟩, [],
    ⟨VerdictDecision.KILL, [⟨"evidenced reason", [0], none⟩], [],
      "wedge", "what would change", [], []⟩,
    ⟨VerdictDecision.KILL, "objective", [], [], "", [], "", "threshold", none⟩,
    [sampleCitation0], [], [],
    ⟨[], 0, 0, 0, 1, 1, 1, none, none⟩⟩

/-! ## Theorems -/

/-- Claim C3: the job status value is always one of exactly the seven
values created, clarifying, researching, analyzing, reviewing, complete,
failed; the client status poller treats complete and failed — and only
those two — as terminal: on complete it stops polling and fetches the
report, on failed it stops polling and sets an error, and on every other
status it keeps polling. -/
theorem job_status_poller_terminality :
    (∀ s : JobStatus,
      s ∈ ([JobStatus.created, JobStatus.clarifying, JobStatus.researching,
            JobStatus.analyzing, JobStatus.reviewing, JobStatus.complete,
            JobStatus.failed] : List JobStatus))
    ∧ ([JobStatus.created, JobStatus.clarifying, JobStatus.researching,
        JobStatus.analyzing, JobStatus.reviewing, JobStatus.complete,
        JobStatus.failed] : List JobStatus).Nodup
    ∧ (∀ s : JobStatus,
        pollTransition s = PollAction.fetchReportAndStop ↔ s = JobStatus.complete)
    ∧ (∀ s : JobStatus,
        pollTransition s = PollAction.setErrorAndStop ↔ s = JobStatus.failed)
    ∧ (∀ s : JobStatus,
        pollTransition s = PollAction.keepPolling ↔
          (s ≠ JobStatus.complete ∧ s ≠ JobStatus.failed)) := by
  refine ⟨by decide, by decide, by decide, by decide, by decide⟩

/-- Counterexample for C8 as stated: the decision string "toString" is
outside the four verdict values, yet the badge does not fall back to the
INSUFFICIENT EVIDENCE configuration — the lookup hits the truthy
`Object.prototype.toString` inherited value, the `||` fallback is skipped,
and rendering throws. -/
theorem verdict_badge_counterexample :
    "toString" ≠ "KILL" ∧ "toString" ≠ "NARROW" ∧ "toString" ≠ "ADVANCE"
    ∧ "toString" ≠ "INSUFFICIENT_EVIDENCE"
    ∧ verdictBadgeRender "toString" ≠ BadgeRender.renders insufficientEvidenceStyle
    ∧ verdictBadgeRender "toString" = BadgeRender.throwsTypeError := by
  refine ⟨by decide, by decide, by decide, by decide, by decide, by decide⟩

/-- Claim C8, amended: the verdict decision is one of exactly the four
values KILL, NARROW, ADVANCE, INSUFFICIENT_EVIDENCE, each mapping to its
own distinct label and style; a decision string outside the four falls
back to the INSUFFICIENT EVIDENCE configuration unless it names an
inherited `Object.prototype` property (such as "toString"), in which case
the truthy inherited value is kept and the badge render fails instead. -/
theorem verdict_badge_amended :
    (∀ d : VerdictDecision,
      d = VerdictDecision.KILL ∨ d = VerdictDecision.NARROW ∨
      d = VerdictDecision.ADVANCE ∨ d = VerdictDecision.INSUFFICIENT_EVIDENCE)
    ∧ verdictBadgeRender "KILL" = BadgeRender.renders killStyle
    ∧ verdictBadgeRender "NARROW" = BadgeRender.renders narrowStyle
    ∧ verdictBadgeRender "ADVANCE" = BadgeRender.renders advanceStyle
    ∧ verdictBadgeRender "INSUFFICIENT_EVIDENCE" =
        BadgeRender.renders insufficientEvidenceStyle
    ∧ ([killStyle.label, narrowStyle.label, advanceStyle.label,
        insufficientEvidenceStyle.label] : List String).Nodup
    ∧ ([killStyle.textColor, narrowStyle.textColor, advanceStyle.textColor,
        insufficientEvidenceStyle.textColor] : List String).Nodup
    ∧ (∀ s : String, s ≠ "KILL" → s ≠ "NARROW" → s ≠ "ADVANCE" →
        s ≠ "INSUFFICIENT_EVIDENCE" → s ∉ protoProps →
        verdictBadgeRender s = BadgeRender.renders insufficientEvidenceStyle)
    ∧ (∀ s : String, s ∈ protoProps →
        verdictBadgeRender s = BadgeRender.throwsTypeError) := by
  refine ⟨by decide, by decide, by decide, by decide, by decide, by decide,
    by decide, ?_, ?_⟩
  · intro s h1 h2 h3 h4 h5
    simp [verdictBadgeRender, verdictBadgeChosen, VERDICT_CONFIG,
      h1, h2, h3, h4, h5]
  · intro s hs
    fin_cases hs <;> decide

/-- Witness for C8 (amended): an arbitrary string outside both the four
decision values and the prototype property names falls back to the
INSUFFICIENT EVIDENCE configuration, while a prototype property name makes
the render fail. -/
theorem verdict_badge_amended_witness :
    verdictBadgeRender "BOGUS" = BadgeRender.renders insufficientEvidenceStyle
    ∧ verdictBadgeRender "valueOf" = BadgeRender.throwsTypeError :=
  ⟨verdict_badge_amended.2.2.2.2.2.2.2.1 "BOGUS" (by decide) (by decide)
      (by decide) (by decide) (by decide),
    verdict_badge_amended.2.2.2.2.2.2.2.2 "valueOf" (by decide)⟩

/-- Claim C7: the timeline lists query_generation, evidence_collection,
analysis, conflict_detection, verdict, validation_plan, skeptic_pass,
assembly in exactly this relative order; for a current stage at position i
every earlier stage renders done, position i renders current, every later
stage renders pending; for a current-stage key not in the list no stage
renders done or current. -/
theorem stage_timeline_order_and_status :
    ([ "query_generation", "evidence_collection", "analysis",
       "conflict_detection", "verdict", "validation_plan", "skeptic_pass",
       "assembly" ] : List String).Sublist stageKeys
    ∧ (∀ i j : Fin stageKeys.length,
        stageRenderState (stageKeys.get i) j =
          (if (j : Nat) < (i : Nat) then StageVisualState.done
           else if (j : Nat) = (i : Nat) then StageVisualState.current
           else StageVisualState.pending))
    ∧ (∀ s : String, s ∉ stageKeys → ∀ j : Nat,
        stageRenderState s j = StageVisualState.pending) := by
  refine ⟨by decide, by decide, ?_⟩
  intro s hs j
  have hnone : stageKeys.findIdx? (fun k => k == s) = none := by
    rw [List.findIdx?_eq_none_iff]
    intro x hx
    simp only [beq_eq_false_iff_ne, ne_eq]
    intro hxs
    exact hs (hxs ▸ hx)
  unfold stageRenderState currentStageIndex
  rw [hnone]
  have h0 : ¬((j : Int) < -1) := by omega
  have h1 : ¬((j : Int) = -1) := by omega
  rw [if_neg h0, if_neg h1]

/-- Witness for C7: a current-stage key outside the list renders every
stage as pending (here stage 0 for the key "unknown"). -/
theorem stage_timeline_witness :
    stageRenderState "unknown" 0 = StageVisualState.pending :=
  stage_timeline_order_and_status.2.2 "unknown" (by decide) 0

/-- Claim C4: for every report, regardless of the verdict decision, the
rendered report includes the validation plan section, whose first entry is
the Objective and whose Success Threshold block is always present; the
section is never omitted or gated on the verdict. -/
theorem validation_plan_always_rendered :
    ∀ r : ResearchReport,
      ReportSection.validationPlan (renderValidationPlan r.validation_plan)
        ∈ renderReport r
      ∧ (validationPlanSections r.validation_plan).head? =
          some ⟨"Objective", some r.validation_plan.objective, none, none⟩
      ∧ (renderValidationPlan r.validation_plan).successThreshold =
          r.validation_plan.success_threshold := by
  intro r
  refine ⟨?_, rfl, rfl⟩
  unfold renderReport
  simp [List.mem_append]

/-- Claim C5: in the evidence appendix the reference number displayed for
a citation is its index in the job's full evidence pack: for every
search/filter state, every citation shown keeps the number it has in the
unfiltered `evidence_pack` array, and that number retrieves it there. -/
theorem evidence_index_stable :
    ∀ (citations : List Citation) (search filterType : String) (c : Citation),
      c ∈ filteredCitations citations search filterType →
      displayedRefNumber citations c = citations.indexOf c
      ∧ displayedRefNumber citations c < citations.length
      ∧ citations.get? (displayedRefNumber citations c) = some c := by
  intro citations search filterType c hc
  have hmem : c ∈ citations := List.mem_of_mem_filter hc
  exact ⟨rfl, List.indexOf_lt_length.mpr hmem, List.indexOf_get? hmem⟩

/-- Witness for C5: with the search "beta" and type filter "all" on a
two-citation pack, the shown citation keeps its unfiltered index 1. -/
theorem evidence_index_stable_witness :
    displayedRefNumber [sampleCitation0, sampleCitation1] sampleCitation1 =
      ([sampleCitation0, sampleCitation1] : List Citation).indexOf sampleCitation1
    ∧ displayedRefNumber [sampleCitation0, sampleCitation1] sampleCitation1 <
        ([sampleCitation0, sampleCitation1] : List Citation).length
    ∧ ([sampleCitation0, sampleCitation1] : List Citation).get?
        (displayedRefNumber [sampleCitation0, sampleCitation1] sampleCitation1) =
          some sampleCitation1 :=
  evidence_index_stable [sampleCitation0, sampleCitation1] "beta" "all"
    sampleCitation1 (by decide)

/-- Claim C6: every conflict in a report's conflicts list is surfaced in
the rendered verdict section: the block is present whenever the list is
non-empty, the displayed count equals the list length, the strong/weak
cards partition the list, and each conflict is shown with its description
and both side texts, none dropped or merged. -/
theorem conflicts_all_surfaced :
    (∀ conflicts : List ConflictReport, conflicts ≠ [] →
      (renderConflictsSection conflicts).isSome = true)
    ∧ (∀ (conflicts : List ConflictReport) (sec : ConflictsSection),
        renderConflictsSection conflicts = some sec →
        sec.count = conflicts.length
        ∧ sec.strongShown.length + sec.weakShown.length = conflicts.length
        ∧ ∀ c ∈ conflicts,
            (c.relevance = Relevance.strong ∧ renderConflict c ∈ sec.strongShown)
            ∨ (c.relevance = Relevance.weak ∧ renderConflict c ∈ sec.weakShown)) := by
  constructor
  · intro conflicts hne
    have hlen : 0 < conflicts.length := List.length_pos.mpr hne
    unfold renderConflictsSection
    rw [if_pos hlen]
    rfl
  · intro conflicts sec hsec
    unfold renderConflictsSection at hsec
    by_cases hlen : 0 < conflicts.length
    · rw [if_pos hlen] at hsec
      obtain rfl := (Option.some.injEq _ _).mp hsec |>.symm
      refine ⟨rfl, ?_, ?_⟩
      · simp only [List.length_map]
        have hperm :=
          (List.filter_append_perm
            (fun c => c.relevance == Relevance.strong) conflicts).length_eq
        simpa [List.length_append] using hperm
      · intro c hc
        cases hrel : c.relevance with
        | strong =>
          exact Or.inl ⟨rfl, List.mem_map_of_mem _
            (List.mem_filter.mpr ⟨hc, by simp [hrel]⟩)⟩
        | weak =>
          exact Or.inr ⟨rfl, List.mem_map_of_mem _
            (List.mem_filter.mpr ⟨hc, by simp [hrel]⟩)⟩
    · rw [if_neg hlen] at hsec
      exact absurd hsec (by simp)

/-- Witness for C6: on a concrete list of one strong and one weak
conflict, the rendered block exists, counts 2, partitions 1 + 1, and the
strong conflict's card is among the prominent cards. -/
theorem conflicts_all_surfaced_witness :
    (renderConflictsSection sampleConflicts).isSome = true
    ∧ sampleConflictsSection.count = sampleConflicts.length
    ∧ sampleConflictsSection.strongShown.length +
        sampleConflictsSection.weakShown.length = sampleConflicts.length
    ∧ ((sampleStrongConflict.relevance = Relevance.strong ∧
          renderConflict sampleStrongConflict ∈ sampleConflictsSection.strongShown)
       ∨ (sampleStrongConflict.relevance = Relevance.weak ∧
          renderConflict sampleStrongConflict ∈ sampleConflictsSection.weakShown)) := by
  have h := conflicts_all_surfaced
  have h2 := h.2 sampleConflicts sampleConflictsSection (by decide)
  exact ⟨h.1 sampleConflicts (by decide), h2.1, h2.2.1,
    h2.2.2 sampleStrongConflict (by decide)⟩

/-- Claim C9: every pain cluster carries exactly seven scored dimensions
(frequency, severity, urgency, payability, workaround_cost, saturation,
accessibility), each with an integer score in 0..5 (the range is modelled
from the spec, the pydantic schema being outside src/) and an
EvidencedClaim justification, and the cluster card renders all seven. -/
theorem cluster_seven_dimensions :
    ∀ c : PainCluster, validClusterScores c.scores →
      (clusterDims c).length = 7
      ∧ (clusterDims c).map (fun d => d.2.1) =
          ["Frequency", "Severity", "Urgency", "Payability", "Workaround",
           "Saturation", "Access"]
      ∧ (clusterDims c).map (fun d => d.2.2) =
          [c.scores.frequency, c.scores.severity, c.scores.urgency,
           c.scores.payability, c.scores.workaround_cost, c.scores.saturation,
           c.scores.accessibility]
      ∧ (∀ d ∈ clusterDims c, 0 ≤ d.2.2.score ∧ d.2.2.score ≤ 5) := by
  intro c hv
  obtain ⟨h1, h2, h3, h4, h5, h6, h7⟩ := hv
  refine ⟨rfl, rfl, rfl, ?_⟩
  intro d hd
  simp only [clusterDims, List.mem_cons, List.not_mem_nil, or_false] at hd
  rcases hd with rfl | rfl | rfl | rfl | rfl | rfl | rfl
  exacts [h1, h2, h3, h4, h5, h6, h7]

/-- Witness for C9: the sample cluster renders exactly seven dimensions
and its frequency dimension's score lies in 0..5. -/
theorem cluster_seven_dimensions_witness :
    (clusterDims sampleCluster).length = 7
    ∧ (0 ≤ sampleCluster.scores.frequency.score
       ∧ sampleCluster.scores.frequency.score ≤ 5) := by
  have h := cluster_seven_dimensions sampleCluster (by decide)
  exact ⟨h.1, h.2.2.2 ("freq", "Frequency", sampleCluster.scores.frequency)
    (by decide)⟩

/-- Claim C1: the Evidence Gate returns either an accepted structured
result or a rejection with a specific reason code, checking the rejection
conditions in the fixed order MALFORMED, UNCITED, INVALID_INDEX,
UNSUPPORTED_NUMERIC, EXCERPT_NOT_FOUND with the first failure winning; a
rejected unit is retried at most 2 times (3 attempts total: the outcome
depends only on the first three generative attempts, and an accepted
outcome always comes from one of them); after 3 rejected attempts the
unit's output becomes the explicit INSUFFICIENT_EVIDENCE placeholder.
The gate and retry loop are modelled from the spec (evidence_gate.py is
not under src/). -/
theorem evidence_gate_contract :
    (∀ (α : Type) (claimsOf : α → List EvidencedClaim) (pack : List Citation)
        (snap : String → Option String) (out : GenOutput α),
        (∃ v, evidenceGate claimsOf pack snap out = GateResult.accepted v)
        ∨ (∃ reason, evidenceGate claimsOf pack snap out = GateResult.rejected reason))
    ∧ (∀ (α : Type) (claimsOf : α → List EvidencedClaim) (pack : List Citation)
        (snap : String → Option String) (raw : String),
        evidenceGate claimsOf pack snap (GenOutput.malformed raw)
          = GateResult.rejected GateReason.MALFORMED)
    ∧ (∀ (α : Type) (claimsOf : α → List EvidencedClaim) (pack : List Citation)
        (snap : String → Option String) (v : α),
        (claimsOf v).any claimUncited = true →
        evidenceGate claimsOf pack snap (GenOutput.parsed v)
          = GateResult.rejected GateReason.UNCITED)
    ∧ (∀ (α : Type) (claimsOf : α → List EvidencedClaim) (pack : List Citation)
        (snap : String → Option String) (v : α),
        (claimsOf v).any claimUncited = false →
        (claimsOf v).any (claimInvalidIndex pack) = true →
        evidenceGate claimsOf pack snap (GenOutput.parsed v)
          = GateResult.rejected GateReason.INVALID_INDEX)
    ∧ (∀ (α : Type) (claimsOf : α → List EvidencedClaim) (pack : List Citation)
        (snap : String → Option String) (v : α),
        (claimsOf v).any claimUncited = false →
        (claimsOf v).any (claimInvalidIndex pack) = false →
        (claimsOf v).any (claimNumericUnsupported pack) = true →
        evidenceGate claimsOf pack snap (GenOutput.parsed v)
          = GateResult.rejected GateReason.UNSUPPORTED_NUMERIC)
    ∧ (∀ (α : Type) (claimsOf : α → List EvidencedClaim) (pack : List Citation)
        (snap : String → Option String) (v : α),
        (claimsOf v).any claimUncited = false →
        (claimsOf v).any (claimInvalidIndex pack) = false →
        (claimsOf v).any (claimNumericUnsupported pack) = false →
        (claimsOf v).any (claimExcerptNotFound pack snap) = true →
        evidenceGate claimsOf pack snap (GenOutput.parsed v)
          = GateResult.rejected GateReason.EXCERPT_NOT_FOUND)
    ∧ (∀ (α : Type) (claimsOf : α → List EvidencedClaim) (pack : List Citation)
        (snap : String → Option String) (v : α),
        (claimsOf v).any claimUncited = false →
        (claimsOf v).any (claimInvalidIndex pack) = false →
        (claimsOf v).any (claimNumericUnsupported pack) = false →
        (claimsOf v).any (claimExcerptNotFound pack snap) = false →
        evidenceGate claimsOf pack snap (GenOutput.parsed v)
          = GateResult.accepted v)
    ∧ (∀ (α : Type) (gate : GenOutput α → GateResult α)
        (gen gen' : Nat → GenOutput α),
        gen 0 = gen' 0 → gen 1 = gen' 1 → gen 2 = gen' 2 →
        runGatedUnit gate gen = runGatedUnit gate gen')
    ∧ (∀ (α : Type) (gate : GenOutput α → GateResult α)
        (gen : Nat → GenOutput α) (v : α),
        runGatedUnit gate gen = UnitOutcome.accepted v →
        ∃ i, i < 3 ∧ gate (gen i) = GateResult.accepted v)
    ∧ (∀ (α : Type) (gate : GenOutput α → GateResult α)
        (gen : Nat → GenOutput α) (r0 r1 r2 : GateReason),
        gate (gen 0) = GateResult.rejected r0 →
        gate (gen 1) = GateResult.rejected r1 →
        gate (gen 2) = GateResult.rejected r2 →
        runGatedUnit gate gen = UnitOutcome.insufficientEvidence)
    ∧ (∀ (α : Type) (gate : GenOutput α → GateResult α)
        (gen : Nat → GenOutput α) (v : α),
        gate (gen 0) = GateResult.accepted v →
        runGatedUnit gate gen = UnitOutcome.accepted v) := by
  refine ⟨?_, ?_, ?_, ?_, ?_, ?_, ?_, ?_, ?_, ?_, ?_⟩
  · intro α claimsOf pack snap out
    cases out with
    | malformed raw => exact Or.inr ⟨GateReason.MALFORMED, rfl⟩
    | parsed v =>
      unfold evidenceGate
      dsimp only
      split_ifs with h1 h2 h3 h4
      · exact Or.inr ⟨GateReason.UNCITED, rfl⟩
      · exact Or.inr ⟨GateReason.INVALID_INDEX, rfl⟩
      · exact Or.inr ⟨GateReason.UNSUPPORTED_NUMERIC, rfl⟩
      · exact Or.inr ⟨GateReason.EXCERPT_NOT_FOUND, rfl⟩
      · exact Or.inl ⟨v, rfl⟩
  · intro α claimsOf pack snap raw
    rfl
  · intro α claimsOf pack snap v h1
    unfold evidenceGate
    dsimp only
    rw [if_pos h1]
  · intro α claimsOf pack snap v h1 h2
    unfold evidenceGate
    dsimp only
    rw [if_neg (by simp [h1]), if_pos h2]
  · intro α claimsOf pack snap v h1 h2 h3
    unfold evidenceGate
    dsimp only
    rw [if_neg (by simp [h1]), if_neg (by simp [h2]), if_pos h3]
  · intro α claimsOf pack snap v h1 h2 h3 h4
    unfold evidenceGate
    dsimp only
    rw [if_neg (by simp [h1]), if_neg (by simp [h2]), if_neg (by simp [h3]),
      if_pos h4]
  · intro α claimsOf pack snap v h1 h2 h3 h4
    unfold evidenceGate
    dsimp only
    rw [if_neg (by simp [h1]), if_neg (by simp [h2]), if_neg (by simp [h3]),
      if_neg (by simp [h4])]
  · intro α gate gen gen' h0 h1 h2
    unfold runGatedUnit
    simp only [runAttempts, h0, h1, h2]
  · intro α gate gen v h
    unfold runGatedUnit at h
    rcases hg0 : gate (gen 0) with w | r0
    · refine ⟨0, by omega, ?_⟩
      simp only [runAttempts, hg0] at h
      cases h
      exact hg0
    · rcases hg1 : gate (gen 1) with w | r1
      · refine ⟨1, by omega, ?_⟩
        simp only [runAttempts, hg0, hg1] at h
        cases h
        exact hg1
      · rcases hg2 : gate (gen 2) with w | r2
        · refine ⟨2, by omega, ?_⟩
          simp only [runAttempts, hg0, hg1, hg2] at h
          cases h
          exact hg2
        · simp only [runAttempts, hg0, hg1, hg2] at h
          simp at h
  · intro α gate gen r0 r1 r2 h0 h1 h2
    unfold runGatedUnit
    simp only [runAttempts, h0, h1, h2]
  · intro α gate gen v h
    unfold runGatedUnit
    simp only [runAttempts, h]

/-- Witness for C1: on concrete inputs, a malformed output is rejected
with MALFORMED; three rejected attempts degrade the unit to the
INSUFFICIENT_EVIDENCE placeholder; a first-attempt accepted output yields
the accepted unit. -/
theorem evidence_gate_contract_witness :
    evidenceGate reportClaims [sampleCitation0] (fun _ => none)
      (GenOutput.malformed "bad output")
      = GateResult.rejected GateReason.MALFORMED
    ∧ runGatedUnit (evidenceGate reportClaims [sampleCitation0] (fun _ => none))
        (fun _ => GenOutput.malformed "bad output")
      = UnitOutcome.insufficientEvidence
    ∧ runGatedUnit (evidenceGate reportClaims [sampleCitation0] (fun _ => none))
        (fun _ => GenOutput.parsed sampleReport)
      = UnitOutcome.accepted sampleReport := by
  have h := evidence_gate_contract
  refine ⟨h.2.1 ResearchReport reportClaims [sampleCitation0] (fun _ => none)
      "bad output", ?_, ?_⟩
  · exact h.2.2.2.2.2.2.2.2.2.1 ResearchReport _ _
      GateReason.MALFORMED GateReason.MALFORMED GateReason.MALFORMED
      (by decide) (by decide) (by decide)
  · exact h.2.2.2.2.2.2.2.2.2.2 ResearchReport _ _ sampleReport (by decide)

/-- Claim C2: in an accepted report every claim's `citation_indices`
entries are valid indices into that job's Evidence Pack: non-negative and
less than the pack length. This covers all claims collected by
`reportClaims` — verdict reasons and risks, competitor strengths and
weaknesses, payability signals, cluster statements and score
justifications, and conflict sides. The gate is modelled from the spec
(evidence_gate.py is not under src/). -/
theorem accepted_claims_indices_valid :
    ∀ (pack : List Citation) (snap : String → Option String)
      (out : GenOutput ResearchReport) (r : ResearchReport),
      evidenceGate reportClaims pack snap out = GateResult.accepted r →
      ∀ c ∈ reportClaims r, ∀ i ∈ c.citation_indices,
        0 ≤ i ∧ i < (pack.length : Int) := by
  intro pack snap out r hacc
  cases out with
  | malformed raw => exact absurd hacc (by simp [evidenceGate])
  | parsed v =>
    unfold evidenceGate at hacc
    dsimp only at hacc
    split_ifs at hacc with h1 h2 h3 h4
    cases hacc
    intro c hc i hi
    have hfalse : claimInvalidIndex pack c = false := by
      by_contra hcontra
      exact h2 (List.any_eq_true.mpr ⟨c, hc, by
        cases hb : claimInvalidIndex pack c
        · exact absurd hb hcontra
        · rfl⟩)
    unfold claimInvalidIndex at hfalse
    rw [List.any_eq_false] at hfalse
    have := hfalse i hi
    simp only [Bool.or_eq_true, decide_eq_true_eq, not_or, not_lt, not_le] at this
    exact this

/-- Witness for C2: the gate accepts the sample report against its
one-citation evidence pack, and the single cited index 0 is valid. -/
theorem accepted_claims_indices_valid_witness :
    0 ≤ (0 : Int)
    ∧ (0 : Int) < (([sampleCitation0] : List Citation).length : Int) :=
  accepted_claims_indices_valid [sampleCitation0] (fun _ => none)
    (GenOutput.parsed sampleReport) sampleReport (by decide)
    ⟨"evidenced reason", [0], none⟩ (by decide) 0 (by decide)
